import Mathlib

/-!
Shallow embedding of the signalbot pipeline
(webhook ingress, command router, quote fetch handler,
registration/delivery bridge) and proofs of its specification claims.

Python string primitives are modelled on ASCII: `str.strip`, `str.split`,
`str.lower`, `str.upper` and `str.startswith` below follow the Python
semantics on the ASCII range, which is all the routing logic inspects.
-/

/-- Python `str.isspace`-style whitespace on the ASCII range. -/
def pyIsSpace (c : Char) : Bool :=
  c = ' ' || c = '\t' || c = '\n' || c = '\r' || c = '\x0b' || c = '\x0c'

/-- Strip leading and trailing whitespace from a character list. -/
def pyStripList (l : List Char) : List Char :=
  (((l.dropWhile pyIsSpace).reverse).dropWhile pyIsSpace).reverse

/-- Python `str.strip()`. -/
def pyStrip (s : String) : String :=
  String.mk (pyStripList s.toList)

/-- Python `str.startswith(pre)`. -/
def pyStartsWith (s pre : String) : Bool :=
  s.toList.take pre.toList.length == pre.toList

/-- Tokenizer for Python `str.split()` (no argument): split on runs of
whitespace, dropping empty tokens.  `acc` holds the current token reversed. -/
def pySplitAux : List Char → List Char → List String
  | [], [] => []
  | [], acc => [String.mk acc.reverse]
  | c :: rest, acc =>
    if pyIsSpace c then
      match acc with
      | [] => pySplitAux rest []
      | _ => String.mk acc.reverse :: pySplitAux rest []
    else pySplitAux rest (c :: acc)

/-- Python `str.split()` with no separator argument. -/
def pySplit (s : String) : List String :=
  pySplitAux s.toList []

/-- Python `str.lower()` on one ASCII character. -/
def pyLowerChar (c : Char) : Char :=
  if 'A' ≤ c && c ≤ 'Z' then Char.ofNat (c.toNat + 32) else c

/-- Python `str.upper()` on one ASCII character. -/
def pyUpperChar (c : Char) : Char :=
  if 'a' ≤ c && c ≤ 'z' then Char.ofNat (c.toNat - 32) else c

/-- Python `str.lower()`. -/
def pyLower (s : String) : String :=
  String.mk (s.toList.map pyLowerChar)

/-- Python `str.upper()`. -/
def pyUpper (s : String) : String :=
  String.mk (s.toList.map pyUpperChar)

/-- Python truthiness of an optional string value (`None` and `""` are
falsy), as used by `if group_id:` and the required-field checks. -/
def truthy : Option String → Bool
  | none => false
  | some s => !(s.toList.isEmpty)

/-- `re.match(r'^[A-Z]{1,5}$', s)` succeeds: one to five ASCII capitals. -/
def tickerOk (s : String) : Bool :=
  let l := s.toList
  decide (1 ≤ l.length) && decide (l.length ≤ 5) &&
    l.all (fun c => 'A' ≤ c && c ≤ 'Z')

/-! ## Command router (`functions/message-processor/main.py`) -/

/-- The decoded Pub/Sub payload consumed by `process_message`: the
`source`, `message` and `group_id` entries of the JSON dict, each possibly
absent (`dict.get`). -/
structure NormalizedMessage where
  source : Option String
  message : Option String
  group_id : Option String
deriving Repr, DecidableEq

/-- A stock request dict as published to the `stock-requests` topic. -/
structure StockRequest where
  sender : Option String
  ticker : String
  group_id : Option String
deriving Repr, DecidableEq

/-- Observable side effects of one router invocation: a queue publish
(`publisher.publish`), a reply (`send_response`), or a usage-record write
attempt (`log_command_usage`, with `ok = false` when the Firestore write
raised and was caught inside). -/
inductive Effect where
  | publish (r : StockRequest)
  | reply (sender : Option String) (text : String) (group_id : Option String)
  | usageWrite (sender : Option String) (command : String)
      (args : List String) (group_id : Option String) (ok : Bool)
deriving Repr, DecidableEq

/-- External-collaborator behaviour for one router invocation:
whether `publisher.publish(...).result()` succeeds, and whether the
Firestore usage write succeeds. -/
structure RouterEnv where
  publishOk : Bool
  usageOk : Bool
deriving Repr, DecidableEq

/-- `message_text = message_data.get('message', '').strip()`. -/
def msg_text (msg : NormalizedMessage) : String :=
  pyStrip (msg.message.getD "")

/-- `command = command_parts[0].lower()` where
`command_parts = message_text.split()`. -/
def msg_command (msg : NormalizedMessage) : String :=
  pyLower ((pySplit (msg_text msg)).headD "")

/-- `args = command_parts[1:] if len(command_parts) > 1 else []`. -/
def msg_args (msg : NormalizedMessage) : List String :=
  (pySplit (msg_text msg)).tail

/-- `"Usage: /stock <ticker>\nExample: /stock AAPL"`. -/
def usage_reply_text : String := "Usage: /stock <ticker>\nExample: /stock AAPL"

/-- `"Invalid ticker symbol. Please use 1-5 letters."`. -/
def invalid_ticker_text : String := "Invalid ticker symbol. Please use 1-5 letters."

/-- `route_stock_command`: returns the effects emitted and `true` when the
function returned normally (`false` models the publish future raising, which
propagates to the caller's outer handler). -/
def route_stock_command (env : RouterEnv) (sender : Option String)
    (args : List String) (group_id : Option String) : List Effect × Bool :=
  if args.isEmpty then
    ([Effect.reply sender usage_reply_text group_id], true)
  else if tickerOk (pyUpper (args.headD "")) = false then
    ([Effect.reply sender invalid_ticker_text group_id], true)
  else if env.publishOk then
    ([Effect.publish ⟨sender, pyUpper (args.headD ""), group_id⟩], true)
  else
    ([], false)

/-- `route_help_command`'s static help text, with the
`"group chat" if group_id else "direct message"` context word. -/
def help_text (group_id : Option String) : String :=
  let context := if truthy group_id then "group chat" else "direct message"
  "🤖 Signal Stock Bot - Available Commands\n\n📈 /stock <ticker> - Get real-time stock price\n   Examples: /stock AAPL, /stock TSLA, /stock MSFT\n\nℹ️  /help - Show this help message\n\n💡 Usage in " ++ context ++ ":\n   • Bot responds to all group members\n   • Commands work the same in DM or group\n   • Stock data updates every request\n\n🚀 Try: /stock AAPL"

/-- `route_help_command`. -/
def route_help_command (sender : Option String) (group_id : Option String) :
    List Effect × Bool :=
  ([Effect.reply sender (help_text group_id) group_id], true)

/-- `send_unknown_command_response`. -/
def send_unknown_command_response (sender : Option String) (command : String)
    (group_id : Option String) : List Effect × Bool :=
  ([Effect.reply sender
      ("Unknown command: " ++ command ++ "\nType /help for available commands.")
      group_id], true)

/-- The `if command == '/stock' ... elif ... else` dispatch of
`process_message`. -/
def dispatch_command (env : RouterEnv) (sender : Option String)
    (command : String) (args : List String) (group_id : Option String) :
    List Effect × Bool :=
  if command = "/stock" then route_stock_command env sender args group_id
  else if command = "/help" then route_help_command sender group_id
  else send_unknown_command_response sender command group_id

/-- `process_message`: the full router body.  Returns the effect trace of
one invocation; the outer `except` swallows any exception, so the function
always returns.  When dispatch raises (second component `false`), the
usage-log write and the group acknowledgment are skipped. -/
def process_message (env : RouterEnv) (msg : NormalizedMessage) : List Effect :=
  if pyStartsWith (msg_text msg) "/" = false then []
  else if (dispatch_command env msg.source (msg_command msg) (msg_args msg) msg.group_id).2 = false then
    (dispatch_command env msg.source (msg_command msg) (msg_args msg) msg.group_id).1
  else if truthy msg.group_id then
    (dispatch_command env msg.source (msg_command msg) (msg_args msg) msg.group_id).1 ++
      [Effect.usageWrite msg.source (msg_command msg) (msg_args msg) msg.group_id env.usageOk,
       Effect.reply msg.source ("Processing " ++ msg_command msg ++ " command...") msg.group_id]
  else
    (dispatch_command env msg.source (msg_command msg) (msg_args msg) msg.group_id).1 ++
      [Effect.usageWrite msg.source (msg_command msg) (msg_args msg) msg.group_id env.usageOk]

/-- Recognizes a publish effect. -/
def Effect.isPublish : Effect → Bool
  | .publish _ => true
  | _ => false

/-- Recognizes a usage-record write attempt. -/
def Effect.isUsageWrite : Effect → Bool
  | .usageWrite _ _ _ _ _ => true
  | _ => false

/-- Recognizes a reply effect. -/
def Effect.isReply : Effect → Bool
  | .reply _ _ _ => true
  | _ => false

/-- Normalizes the recorded success flag of usage writes, to state that a
usage-write failure changes nothing else in the trace. -/
def scrubUsageOk : Effect → Effect
  | .usageWrite s c a g _ => .usageWrite s c a g true
  | e => e

/-! ## Quote fetch handler (`functions/stock-handler/main.py`) -/

/-- The yfinance data consumed by `get_stock_data`: the closing-price and
volume columns of `stock.history(period="1d")` and the `info` fields it
reads.  Prices are modelled as rationals. -/
structure TickerInfo where
  histClose : List ℚ
  histVolume : List ℤ
  previousClose : Option ℚ
  longName : Option String
  marketCap : Option ℚ
  forwardPE : Option ℚ
deriving Repr, DecidableEq

/-- The `data` dict of a successful `get_stock_data` result. -/
structure QuoteData where
  symbol : String
  name : String
  price : ℚ
  change : ℚ
  change_percent : ℚ
  volume : ℤ
  market_cap : Option ℚ
  pe_ratio : Option ℚ
deriving Repr, DecidableEq

/-- `hist['Close'].iloc[-1]` (guarded by the non-empty check). -/
def currentPrice (info : TickerInfo) : ℚ := info.histClose.getLastD 0

/-- `prev_close = info.get('previousClose', current_price)`. -/
def prevClose (info : TickerInfo) : ℚ :=
  info.previousClose.getD (currentPrice info)

/-- `get_stock_data`: `error` models the `{'success': False, 'error': ...}`
return for an empty price history; `ok` carries the `data` dict.
`change_percent = (change / prev_close) * 100 if prev_close else 0`. -/
def get_stock_data (ticker : String) (info : TickerInfo) : Except String QuoteData :=
  if info.histClose.isEmpty then Except.error "No data found for ticker"
  else
    Except.ok
      { symbol := ticker
        name := info.longName.getD ticker
        price := currentPrice info
        change := currentPrice info - prevClose info
        change_percent :=
          if prevClose info ≠ 0 then
            (currentPrice info - prevClose info) / prevClose info * 100
          else 0
        volume := if info.histVolume.isEmpty then 0 else info.histVolume.getLastD 0
        market_cap := info.marketCap
        pe_ratio := info.forwardPE }

/-! ## Registration bridge (`functions/signal-registration/main.py`) -/

/-- Outcome of one `subprocess.run` CLI invocation as seen by the caller:
normal completion with exit code and captured output, a
`subprocess.TimeoutExpired` (the 30-second limit), or any other exception
raised inside the `try` block. -/
inductive CliResult where
  | finished (returncode : Int) (stdout stderr : String)
  | timeout
  | fault (message : String)
deriving Repr, DecidableEq

/-- Blob-storage and secret state touched by the registration bridge:
which phones have a `temp/<phone>/config.tar.gz` archive, which have a
`verified/<phone>/config.tar.gz` archive, and the appended versions of the
`signal-phone-number` secret. -/
structure RegStore where
  tempConfigs : List String
  verifiedConfigs : List String
  phoneSecretVersions : List String
deriving Repr, DecidableEq

/-- The `(json_body, status)` returns of `register_number` and
`verify_number`, one constructor per return statement. -/
inductive RegResp where
  | registerOk (phone : String)
  | registerFailed (stderr : String)
  | registerTimeout
  | registerError (message : String)
  | verifyOk (phone : String)
  | verifyFailed (stderr : String)
  | verifyTimeout
  | verifyError (message : String)
deriving Repr, DecidableEq

/-- The HTTP status code of each return. -/
def RegResp.code : RegResp → Nat
  | .registerOk _ | .verifyOk _ => 200
  | .registerFailed _ | .verifyFailed _ => 400
  | .registerTimeout | .verifyTimeout => 408
  | .registerError _ | .verifyError _ => 500

/-- The `message` field of the JSON body of each return. -/
def RegResp.message : RegResp → String
  | .registerOk p => "Verification code sent to " ++ p
  | .registerFailed e => "Registration failed: " ++ e
  | .registerTimeout => "Registration timeout"
  | .registerError m => m
  | .verifyOk p => "Phone number " ++ p ++ " verified successfully"
  | .verifyFailed e => "Verification failed: " ++ e
  | .verifyTimeout => "Verification timeout"
  | .verifyError m => m

/-- `store_signal_config`: uploads `temp/<phone>/config.tar.gz`
(storage errors are swallowed inside; the success path is modelled). -/
def store_signal_config (phone : String) (st : RegStore) : RegStore :=
  { st with tempConfigs := phone :: st.tempConfigs }

/-- `restore_signal_config`: downloads and extracts
`temp/<phone>/config.tar.gz` into the local working directory.  Every
exception — including the download failing because no such archive
exists — is caught and only logged inside the function, so the caller
continues unconditionally and the persistent state is unchanged. -/
def restore_signal_config (phone : String) (st : RegStore) : RegStore := st

/-- `store_verified_config`: uploads `verified/<phone>/config.tar.gz` and
appends a new version of the `signal-phone-number` secret
(`add_secret_version`). -/
def store_verified_config (phone : String) (st : RegStore) : RegStore :=
  { st with
      verifiedConfigs := phone :: st.verifiedConfigs
      phoneSecretVersions := st.phoneSecretVersions ++ [phone] }

/-- `register_number`. -/
def register_number (phone : String) (cli : CliResult) (st : RegStore) :
    RegResp × RegStore :=
  match cli with
  | .finished rc _ stderr =>
    if rc = 0 then (.registerOk phone, store_signal_config phone st)
    else (.registerFailed stderr, st)
  | .timeout => (.registerTimeout, st)
  | .fault e => (.registerError e, st)

/-- `verify_number`: restores the temp config (which never fails the
operation), runs the CLI verify, and on exit code 0 stores the verified
config and the phone secret. -/
def verify_number (phone : String) (code : String) (cli : CliResult)
    (st : RegStore) : RegResp × RegStore :=
  match cli with
  | .finished rc _ stderr =>
    if rc = 0 then
      (.verifyOk phone, store_verified_config phone (restore_signal_config phone st))
    else (.verifyFailed stderr, restore_signal_config phone st)
  | .timeout => (.verifyTimeout, restore_signal_config phone st)
  | .fault e => (.verifyError e, restore_signal_config phone st)

/-! ## Delivery bridge (`functions/signal-sender/main.py`) -/

/-- The `(json_body, status)` returns of `signal_sender` and
`send_signal_message`, one constructor per return statement. -/
inductive SendResp where
  | messageRequired
  | recipientRequired
  | healthy
  | methodNotAllowed
  | internalError
  | noNumber
  | sent (recipient : Option String) (group_id : Option String)
  | sendFailed (stderr : String)
  | sendTimeout
  | sendError (message : String)
deriving Repr, DecidableEq

/-- The HTTP status code of each return. -/
def SendResp.code : SendResp → Nat
  | .messageRequired | .recipientRequired | .sendFailed _ => 400
  | .healthy | .sent _ _ => 200
  | .methodNotAllowed => 405
  | .sendTimeout => 408
  | .internalError | .noNumber | .sendError _ => 500

/-- The error/message text of each return. -/
def SendResp.message : SendResp → String
  | .messageRequired => "message is required"
  | .recipientRequired => "Either recipient or group_id is required"
  | .healthy => "healthy"
  | .methodNotAllowed => "Method not allowed"
  | .internalError => "Internal server error"
  | .noNumber => "No registered Signal number found"
  | .sent _ _ => "Message sent successfully"
  | .sendFailed e => "Send failed: " ++ e
  | .sendTimeout => "Send timeout"
  | .sendError m => m

/-- External collaborators of one `send_signal_message` call: the
`signal-phone-number` secret lookup (`none` models any failure, which
`get_registered_phone_number` turns into `None`), the outcome of
`restore_verified_config` (which re-raises on failure), and the CLI. -/
structure SendEnv where
  phoneSecret : Option String
  restore : Except String Unit
  cli : CliResult
deriving Repr

/-- `os.path.join(temp_dir, 'signal-cli.jar')`; the temp directory itself
is irrelevant to the claims, so the path is a fixed stand-in. -/
def signal_cli_jar : String := "signal-cli.jar"

/-- `os.path.join(temp_dir, '.local', 'share', 'signal-cli')`. -/
def signal_config_dir : String := ".local/share/signal-cli"

/-- The argv built at lines 75-86 of the sender: `--group-id` when
`group_id` is truthy, otherwise the recipient is appended as the target
(the HTTP layer guarantees it is set in that case; `getD ""` stands for
the raw value). -/
def build_send_cmd (recipient : Option String) (message : String)
    (group_id : Option String) : List String :=
  ["java", "-jar", signal_cli_jar, "--config", signal_config_dir, "send"] ++
    (if truthy group_id then ["--group-id", group_id.getD ""]
     else [recipient.getD ""]) ++
    ["--message", message]

/-- `send_signal_message`: returns the response and the list of CLI
invocations performed (their argv). -/
def send_signal_message (recipient : Option String) (message : String)
    (group_id : Option String) (env : SendEnv) : SendResp × List (List String) :=
  match env.phoneSecret with
  | none => (.noNumber, [])
  | some _ =>
    match env.restore with
    | .error e => (.sendError e, [])
    | .ok _ =>
      match env.cli with
      | .finished rc _ stderr =>
        if rc = 0 then
          (.sent recipient group_id, [build_send_cmd recipient message group_id])
        else (.sendFailed stderr, [build_send_cmd recipient message group_id])
      | .timeout => (.sendTimeout, [build_send_cmd recipient message group_id])
      | .fault e => (.sendError e, [build_send_cmd recipient message group_id])

/-- `signal_sender`: the HTTP handler around `send_signal_message`. -/
def signal_sender (method : String) (recipient : Option String)
    (message : Option String) (group_id : Option String) (env : SendEnv) :
    SendResp × List (List String) :=
  if method = "POST" then
    if truthy message = false then (.messageRequired, [])
    else if truthy recipient = false && truthy group_id = false then
      (.recipientRequired, [])
    else send_signal_message recipient (message.getD "") group_id env
  else if method = "GET" then (.healthy, [])
  else (.methodNotAllowed, [])

/-! ## Webhook ingress (`functions/webhook/main.py`) -/

/-- `dataMessage.groupInfo`. -/
structure GroupInfo where
  groupId : Option String
deriving Repr, DecidableEq

/-- `envelope.dataMessage`. -/
structure DataMessage where
  message : Option String
  groupInfo : Option GroupInfo
deriving Repr, DecidableEq

/-- `envelope`. -/
structure SignalEnvelope where
  timestamp : Option Int
  source : Option String
  dataMessage : Option DataMessage
deriving Repr, DecidableEq

/-- The parsed webhook request body.  A `some` value models a truthy JSON
object; at the call site `none` models `get_json(silent=True)` yielding
nothing usable — absent or invalid JSON, or a falsy value such as the
empty object, which `if not request_json` treats identically. -/
structure WebhookBody where
  envelope : Option SignalEnvelope
deriving Repr, DecidableEq

/-- The dict published to the ingress (`signal-messages`) topic. -/
structure PubSubRecord where
  timestamp : Option Int
  source : Option String
  message : Option String
  group_id : Option String
deriving Repr, DecidableEq

/-- The webhook's HTTP responses, one constructor per return statement.
`success` carries the queue message id and the extracted text echoed in
the body. -/
inductive WebhookResp where
  | preflight
  | healthy
  | methodNotAllowed
  | noJson
  | ignored
  | success (message_id : String) (echoed : Option String)
  | serverError (detail : String)
deriving Repr, DecidableEq

/-- The queue publish as an external collaborator: the message id from an
acknowledged `future.result()`, or the error raised by a failed publish. -/
structure WebhookEnv where
  publish : Except String String
deriving Repr

/-- `envelope.get('dataMessage', {}).get('message')`. -/
def webhook_message (b : WebhookBody) : Option String :=
  (b.envelope.bind (fun e => e.dataMessage)).bind (fun d => d.message)

/-- The `message_data` dict built at lines 63-68 of the webhook. -/
def webhook_record (b : WebhookBody) : PubSubRecord :=
  { timestamp := b.envelope.bind (fun e => e.timestamp)
    source := b.envelope.bind (fun e => e.source)
    message := webhook_message b
    group_id := ((b.envelope.bind (fun e => e.dataMessage)).bind
      (fun d => d.groupInfo)).bind (fun g => g.groupId) }

/-- `signal_webhook`: returns the response and the list of records
published to the ingress queue. -/
def signal_webhook (method : String) (body : Option WebhookBody)
    (env : WebhookEnv) : WebhookResp × List PubSubRecord :=
  if method = "OPTIONS" then (.preflight, [])
  else if method = "GET" then (.healthy, [])
  else if method ≠ "POST" then (.methodNotAllowed, [])
  else
    match body with
    | none => (.noJson, [])
    | some b =>
      if truthy (webhook_message b) = false then (.ignored, [])
      else
        match env.publish with
        | .error e => (.serverError ("Internal server error: " ++ e), [])
        | .ok mid => (.success mid (webhook_message b), [webhook_record b])

/-- Scans a trace for an occurrence of `ack` that is followed, strictly
later, by some reply effect. -/
def ackThenLaterReply (ack : Effect) : List Effect → Bool
  | [] => false
  | e :: rest => (e == ack && rest.any Effect.isReply) || ackThenLaterReply ack rest

/-- C1: every StockRequest published by the router has a ticker matching
`^[A-Z]{1,5}$`; no request with a non-matching ticker is ever published. -/
theorem stock_publish_ticker_valid (env : RouterEnv) (msg : NormalizedMessage)
    (r : StockRequest) (h : Effect.publish r ∈ process_message env msg) :
    tickerOk r.ticker = true := by
  unfold process_message dispatch_command route_stock_command route_help_command
    send_unknown_command_response at h
  repeat' split at h
  all_goals simp_all

/-- C1 witness: `/stock aapl` publishes the upper-cased, pattern-valid
ticker `AAPL`. -/
theorem stock_publish_ticker_valid_witness :
    Effect.publish ⟨some "a", "AAPL", none⟩ ∈
      process_message ⟨true, true⟩ ⟨some "a", some "/stock aapl", none⟩ ∧
    tickerOk "AAPL" = true :=
  ⟨by decide, stock_publish_ticker_valid ⟨true, true⟩ ⟨some "a", some "/stock aapl", none⟩
    ⟨some "a", "AAPL", none⟩ (by decide)⟩

/-- C2 counterexample: the raw inbound text `" /x"` does not start with
`/`, yet the router strips it first and then replies and writes a usage
record — so the claim over raw inbound text is false. -/
theorem noncommand_raw_text_counterexample :
    pyStartsWith " /x" "/" = false ∧
    process_message ⟨true, true⟩ ⟨some "a", some " /x", none⟩ =
      [Effect.reply (some "a") "Unknown command: /x\nType /help for available commands." none,
       Effect.usageWrite (some "a") "/x" [] none true] := by decide

/-- C2 amended: for every inbound text that, after the router's
`strip()`, does not start with `/`, the router performs zero publishes,
zero replies and zero usage-log writes. -/
theorem stripped_noncommand_no_effects (env : RouterEnv) (msg : NormalizedMessage)
    (h : pyStartsWith (msg_text msg) "/" = false) :
    process_message env msg = [] := by
  unfold process_message
  simp [h]

/-- C2 amended witness: `"hello there"` produces an empty effect trace. -/
theorem stripped_noncommand_no_effects_witness :
    pyStartsWith (msg_text ⟨some "a", some "hello there", none⟩) "/" = false ∧
    process_message ⟨true, true⟩ ⟨some "a", some "hello there", none⟩ = [] :=
  ⟨by decide, stripped_noncommand_no_effects ⟨true, true⟩
    ⟨some "a", some "hello there", none⟩ (by decide)⟩

/-- C3 counterexample: for `/FooBar x y` the reply carries the
lower-cased name `/foobar`, not the name as typed, so "retained, not
case-normalized" is false. -/
theorem unknown_command_lowercased_counterexample :
    process_message ⟨true, true⟩ ⟨some "a", some "/FooBar x y", none⟩ =
      [Effect.reply (some "a") "Unknown command: /foobar\nType /help for available commands." none,
       Effect.usageWrite (some "a") "/foobar" ["x", "y"] none true] ∧
    Effect.reply (some "a") "Unknown command: /FooBar\nType /help for available commands." none ∉
      process_message ⟨true, true⟩ ⟨some "a", some "/FooBar x y", none⟩ := by decide

/-- C3 amended: for a command that is neither `/stock` nor `/help`, the
first effect is the reply `Unknown command: <name>\nType /help for
available commands.` where `<name>` is the first whitespace-delimited
token lower-cased. -/
theorem unknown_command_reply_lowercased (env : RouterEnv) (msg : NormalizedMessage)
    (h : pyStartsWith (msg_text msg) "/" = true)
    (hs : msg_command msg ≠ "/stock") (hh : msg_command msg ≠ "/help") :
    (process_message env msg).head? = some (Effect.reply msg.source
      ("Unknown command: " ++ msg_command msg ++ "\nType /help for available commands.")
      msg.group_id) := by
  unfold process_message dispatch_command send_unknown_command_response
  simp [h, hs, hh]
  split <;> simp

/-- C3 amended witness at `/FOO`. -/
theorem unknown_command_reply_lowercased_witness :
    (process_message ⟨true, true⟩ ⟨some "a", some "/FOO", none⟩).head? =
      some (Effect.reply (some "a")
        ("Unknown command: " ++ msg_command ⟨some "a", some "/FOO", none⟩ ++
          "\nType /help for available commands.") none) :=
  unknown_command_reply_lowercased ⟨true, true⟩ ⟨some "a", some "/FOO", none⟩
    (by decide) (by decide) (by decide)

/-- Helper: no dispatch branch emits a usage-write effect itself. -/
theorem dispatch_no_usageWrite (env : RouterEnv) (sender : Option String)
    (command : String) (args : List String) (gid : Option String) :
    (dispatch_command env sender command args gid).1.filter Effect.isUsageWrite = [] := by
  unfold dispatch_command route_stock_command route_help_command send_unknown_command_response
  repeat' split
  all_goals rfl

/-- Helper: dispatch never reads the usage-write environment flag. -/
theorem dispatch_usageOk_irrel (p u u' : Bool) (sender : Option String)
    (command : String) (args : List String) (gid : Option String) :
    dispatch_command ⟨p, u⟩ sender command args gid =
      dispatch_command ⟨p, u'⟩ sender command args gid := by
  unfold dispatch_command route_stock_command route_help_command send_unknown_command_response
  rfl

/-- C4: when dispatch of a command message completes, the trace holds
exactly one usage-write attempt (whatever the branch), and a failing
usage write changes nothing else in the trace (never propagates). -/
theorem usage_write_exactly_once (env : RouterEnv) (msg : NormalizedMessage)
    (h : pyStartsWith (msg_text msg) "/" = true)
    (hc : (dispatch_command env msg.source (msg_command msg) (msg_args msg) msg.group_id).2 = true) :
    (process_message env msg).filter Effect.isUsageWrite =
      [Effect.usageWrite msg.source (msg_command msg) (msg_args msg) msg.group_id env.usageOk] ∧
    (process_message ⟨env.publishOk, false⟩ msg).map scrubUsageOk =
      (process_message ⟨env.publishOk, true⟩ msg).map scrubUsageOk := by
  constructor
  · unfold process_message
    simp only [h, Bool.true_eq_false, if_false, hc, if_true]
    split <;> simp [List.filter_append, dispatch_no_usageWrite, Effect.isUsageWrite, Effect.isReply]
  · unfold process_message
    rw [dispatch_usageOk_irrel env.publishOk false true]
    split
    · rfl
    · split
      · rfl
      · split <;> simp [List.map_append, scrubUsageOk]

/-- C4 witness at `/help`. -/
theorem usage_write_exactly_once_witness :
    (process_message ⟨true, true⟩ ⟨some "a", some "/help", none⟩).filter Effect.isUsageWrite =
      [Effect.usageWrite (some "a") (msg_command ⟨some "a", some "/help", none⟩)
        (msg_args ⟨some "a", some "/help", none⟩) none true] ∧
    (process_message ⟨true, false⟩ ⟨some "a", some "/help", none⟩).map scrubUsageOk =
      (process_message ⟨true, true⟩ ⟨some "a", some "/help", none⟩).map scrubUsageOk :=
  usage_write_exactly_once ⟨true, true⟩ ⟨some "a", some "/help", none⟩
    (by decide) (by decide)

/-- C5 counterexample: for the group command `/foo` the acknowledgement
`Processing /foo command...` is present but no reply follows it — it
comes after the branch's final reply, not before. -/
theorem ack_before_final_reply_counterexample :
    Effect.reply (some "a") "Processing /foo command..." (some "g") ∈
      process_message ⟨true, true⟩ ⟨some "a", some "/foo", some "g"⟩ ∧
    (process_message ⟨true, true⟩ ⟨some "a", some "/foo", some "g"⟩).filter Effect.isReply =
      [Effect.reply (some "a") "Unknown command: /foo\nType /help for available commands." (some "g"),
       Effect.reply (some "a") "Processing /foo command..." (some "g")] ∧
    ackThenLaterReply (Effect.reply (some "a") "Processing /foo command..." (some "g"))
      (process_message ⟨true, true⟩ ⟨some "a", some "/foo", some "g"⟩) = false := by decide

/-- C5 amended: when `group_id` is truthy and dispatch completes, the
acknowledgement reply is the last effect of the invocation — it follows
(never precedes) any direct reply of the branch and the usage write. -/
theorem ack_emitted_last (env : RouterEnv) (msg : NormalizedMessage)
    (h : pyStartsWith (msg_text msg) "/" = true)
    (hc : (dispatch_command env msg.source (msg_command msg) (msg_args msg) msg.group_id).2 = true)
    (hg : truthy msg.group_id = true) :
    (process_message env msg).getLast? = some (Effect.reply msg.source
      ("Processing " ++ msg_command msg ++ " command...") msg.group_id) := by
  unfold process_message
  simp [h, hc, hg]

/-- C5 amended witness. -/
theorem ack_emitted_last_witness :
    (process_message ⟨true, true⟩ ⟨some "a", some "/foo", some "g"⟩).getLast? =
      some (Effect.reply (some "a")
        ("Processing " ++ msg_command ⟨some "a", some "/foo", some "g"⟩ ++ " command...")
        (some "g")) :=
  ack_emitted_last ⟨true, true⟩ ⟨some "a", some "/foo", some "g"⟩
    (by decide) (by decide) (by decide)

/-- C6: every successfully fetched quote satisfies
`change = current_price - previous_close`, and
`change_percent = change / previous_close * 100` except that it is `0`
when `previous_close` is zero, so the division is always guarded. -/
theorem quote_change_formula (ticker : String) (info : TickerInfo) (q : QuoteData)
    (h : get_stock_data ticker info = Except.ok q) :
    q.change = currentPrice info - prevClose info ∧
    q.change_percent =
      (if prevClose info = 0 then 0 else q.change / prevClose info * 100) := by
  unfold get_stock_data at h
  split at h
  · cases h
  · injection h with h'
    subst h'
    refine ⟨rfl, ?_⟩
    by_cases hp : prevClose info = 0 <;> simp [hp]

/-- C6 witness: `previous_close = 100`, `current_price = 110` gives
`change = 10` and `change_percent = 10`. -/
theorem quote_change_formula_witness :
    get_stock_data "AAPL" ⟨[110], [5], some 100, some "Apple Inc.", none, none⟩ =
      Except.ok ⟨"AAPL", "Apple Inc.", 110, 10, 10, 5, none, none⟩ ∧
    (10 : ℚ) = currentPrice ⟨[110], [5], some 100, some "Apple Inc.", none, none⟩ -
      prevClose ⟨[110], [5], some 100, some "Apple Inc.", none, none⟩ ∧
    (10 : ℚ) = (if prevClose ⟨[110], [5], some 100, some "Apple Inc.", none, none⟩ = 0
      then 0
      else (10 : ℚ) / prevClose ⟨[110], [5], some 100, some "Apple Inc.", none, none⟩ * 100) := by
  have hok : get_stock_data "AAPL" ⟨[110], [5], some 100, some "Apple Inc.", none, none⟩ =
      Except.ok ⟨"AAPL", "Apple Inc.", 110, 10, 10, 5, none, none⟩ := by
    unfold get_stock_data currentPrice prevClose
    norm_num
  have h := quote_change_formula "AAPL" _ _ hok
  exact ⟨hok, h.1, h.2⟩

/-- C7 (code bug): calling verify with no prior temp archive does not
fail at the restore step — `restore_signal_config` swallows its own
exception — so the operation proceeds to the CLI: if the CLI exits 0 the
verified archive and the `signal-phone-number` secret ARE written and the
call returns 200; when the CLI fails, the error reported is the CLI-step
error (`Verification failed: ...`, 400), not a restore error. -/
theorem verify_before_register_writes_secret :
    verify_number "+15551234567" "123456" (CliResult.finished 0 "" "") ⟨[], [], []⟩ =
      (RegResp.verifyOk "+15551234567",
       ⟨[], ["+15551234567"], ["+15551234567"]⟩) ∧
    (verify_number "+15551234567" "123456" (CliResult.finished 0 "" "") ⟨[], [], []⟩).1.code = 200 ∧
    verify_number "+15551234567" "123456" (CliResult.finished 1 "" "no account data") ⟨[], [], []⟩ =
      (RegResp.verifyFailed "no account data", ⟨[], [], []⟩) ∧
    (verify_number "+15551234567" "123456" (CliResult.finished 1 "" "no account data") ⟨[], [], []⟩).1.message =
      "Verification failed: no account data" := by decide

/-- C9: in all three CLI-backed operations, a subprocess timeout is a
408, a non-zero exit is a 400 whose message carries the CLI's stderr, and
any other internal fault is a 500 — three distinct outcomes. -/
theorem cli_failure_reporting (phone code : String) (recipient : Option String)
    (message : String) (group_id : Option String) (st : RegStore)
    (rc : Int) (out err e : String) (hrc : rc ≠ 0) :
    (register_number phone CliResult.timeout st).1.code = 408 ∧
    (register_number phone (CliResult.finished rc out err) st).1.code = 400 ∧
    (register_number phone (CliResult.finished rc out err) st).1.message =
      "Registration failed: " ++ err ∧
    (register_number phone (CliResult.fault e) st).1.code = 500 ∧
    (verify_number phone code CliResult.timeout st).1.code = 408 ∧
    (verify_number phone code (CliResult.finished rc out err) st).1.code = 400 ∧
    (verify_number phone code (CliResult.finished rc out err) st).1.message =
      "Verification failed: " ++ err ∧
    (verify_number phone code (CliResult.fault e) st).1.code = 500 ∧
    (send_signal_message recipient message group_id
      ⟨some phone, Except.ok (), CliResult.timeout⟩).1.code = 408 ∧
    (send_signal_message recipient message group_id
      ⟨some phone, Except.ok (), CliResult.finished rc out err⟩).1.code = 400 ∧
    (send_signal_message recipient message group_id
      ⟨some phone, Except.ok (), CliResult.finished rc out err⟩).1.message =
      "Send failed: " ++ err ∧
    (send_signal_message recipient message group_id
      ⟨some phone, Except.ok (), CliResult.fault e⟩).1.code = 500 := by
  refine ⟨rfl, ?_, ?_, rfl, rfl, ?_, ?_, rfl, rfl, ?_, ?_, rfl⟩ <;>
    simp [register_number, verify_number, send_signal_message, hrc,
      RegResp.code, RegResp.message, SendResp.code, SendResp.message]

/-- C9 witness at exit code 1 with stderr `boom`. -/
theorem cli_failure_reporting_witness :
    (register_number "+15551234567" CliResult.timeout ⟨[], [], []⟩).1.code = 408 ∧
    (register_number "+15551234567" (CliResult.finished 1 "" "boom") ⟨[], [], []⟩).1.code = 400 ∧
    (register_number "+15551234567" (CliResult.finished 1 "" "boom") ⟨[], [], []⟩).1.message =
      "Registration failed: " ++ "boom" ∧
    (register_number "+15551234567" (CliResult.fault "oops") ⟨[], [], []⟩).1.code = 500 ∧
    (verify_number "+15551234567" "123456" CliResult.timeout ⟨[], [], []⟩).1.code = 408 ∧
    (verify_number "+15551234567" "123456" (CliResult.finished 1 "" "boom") ⟨[], [], []⟩).1.code = 400 ∧
    (verify_number "+15551234567" "123456" (CliResult.finished 1 "" "boom") ⟨[], [], []⟩).1.message =
      "Verification failed: " ++ "boom" ∧
    (verify_number "+15551234567" "123456" (CliResult.fault "oops") ⟨[], [], []⟩).1.code = 500 ∧
    (send_signal_message (some "+16665550000") "hi" none
      ⟨some "+15551234567", Except.ok (), CliResult.timeout⟩).1.code = 408 ∧
    (send_signal_message (some "+16665550000") "hi" none
      ⟨some "+15551234567", Except.ok (), CliResult.finished 1 "" "boom"⟩).1.code = 400 ∧
    (send_signal_message (some "+16665550000") "hi" none
      ⟨some "+15551234567", Except.ok (), CliResult.finished 1 "" "boom"⟩).1.message =
      "Send failed: " ++ "boom" ∧
    (send_signal_message (some "+16665550000") "hi" none
      ⟨some "+15551234567", Except.ok (), CliResult.fault "oops"⟩).1.code = 500 :=
  cli_failure_reporting "+15551234567" "123456" (some "+16665550000") "hi" none
    ⟨[], [], []⟩ 1 "" "boom" "oops" (by decide)

/-- C8: for a POST with a usable JSON body, an absent or empty
`envelope.dataMessage.message` yields the `ignored` response with no
enqueue; a present text yields exactly one enqueued
`{timestamp, source, message, group_id}` record and a success response
carrying the queue-assigned message id. -/
theorem webhook_ignored_or_single_enqueue (env : WebhookEnv) (b : WebhookBody) :
    (truthy (webhook_message b) = false →
      signal_webhook "POST" (some b) env = (WebhookResp.ignored, [])) ∧
    (∀ mid : String, env.publish = Except.ok mid → truthy (webhook_message b) = true →
      signal_webhook "POST" (some b) env =
        (WebhookResp.success mid (webhook_message b), [webhook_record b])) := by
  constructor
  · intro h
    simp [signal_webhook, h]
  · intro mid hp h
    simp [signal_webhook, h, hp]

/-- C8 witness: one ignored call, one successful single-record enqueue. -/
theorem webhook_ignored_or_single_enqueue_witness :
    signal_webhook "POST"
      (some ⟨some ⟨some 1727000000, some "+15551234567",
        some ⟨some "/stock AAPL", some ⟨some "grp"⟩⟩⟩⟩) ⟨Except.ok "mid-1"⟩ =
      (WebhookResp.success "mid-1" (some "/stock AAPL"),
       [⟨some 1727000000, some "+15551234567", some "/stock AAPL", some "grp"⟩]) ∧
    signal_webhook "POST"
      (some ⟨some ⟨some 2, some "+15551234567", some ⟨none, none⟩⟩⟩) ⟨Except.ok "mid-2"⟩ =
      (WebhookResp.ignored, []) :=
  ⟨(webhook_ignored_or_single_enqueue ⟨Except.ok "mid-1"⟩ _).2 "mid-1" rfl (by decide),
   (webhook_ignored_or_single_enqueue ⟨Except.ok "mid-2"⟩ _).1 (by decide)⟩

/-- C10: when message, recipient and group_id are all provided (truthy),
the CLI invocations of the sender are identical for any recipient value,
and each invocation targets the group via `--group-id` with no recipient
argument. -/
theorem group_send_ignores_recipient (r r' m gid : Option String) (env : SendEnv)
    (hm : truthy m = true) (hr : truthy r = true) (hr' : truthy r' = true)
    (hg : truthy gid = true) :
    (signal_sender "POST" r m gid env).2 = (signal_sender "POST" r' m gid env).2 ∧
    ∀ c ∈ (signal_sender "POST" r m gid env).2,
      c = ["java", "-jar", signal_cli_jar, "--config", signal_config_dir, "send",
           "--group-id", gid.getD "", "--message", m.getD ""] := by
  rcases env with ⟨ps, rst, cli⟩
  cases ps <;> rcases rst with e | u <;> cases cli <;>
    simp [signal_sender, send_signal_message, build_send_cmd, hm, hr, hr', hg] <;>
    split <;> simp

/-- C10 witness: two different recipients, same group CLI call. -/
theorem group_send_ignores_recipient_witness :
    (signal_sender "POST" (some "+16665550000") (some "hello") (some "grp-1")
        ⟨some "+15551234567", Except.ok (), CliResult.finished 0 "" ""⟩).2 =
      (signal_sender "POST" (some "+17775550000") (some "hello") (some "grp-1")
        ⟨some "+15551234567", Except.ok (), CliResult.finished 0 "" ""⟩).2 ∧
    (signal_sender "POST" (some "+16665550000") (some "hello") (some "grp-1")
        ⟨some "+15551234567", Except.ok (), CliResult.finished 0 "" ""⟩).2 =
      [["java", "-jar", signal_cli_jar, "--config", signal_config_dir, "send",
        "--group-id", "grp-1", "--message", "hello"]] := by
  have h := group_send_ignores_recipient (some "+16665550000") (some "+17775550000")
    (some "hello") (some "grp-1")
    ⟨some "+15551234567", Except.ok (), CliResult.finished 0 "" ""⟩
    (by decide) (by decide) (by decide) (by decide)
  exact ⟨h.1, by decide⟩
